import Mathlib

/-!
# Verification of the pygents orchestration runtime

Shallow embedding of the pygents core (Turn execution state machine,
Agent routing loop, hook dispatch, bounded context containers) together
with proofs settling the frozen claims about the natural-language spec.

The embedding follows the source files `src/pygents/context.py`,
`src/pygents/registry.py`, `src/pygents/turn.py`, `src/pygents/agent.py`,
`src/pygents/utils.py` and `src/pygents/hooks.py`.  Time is modelled as
`Nat` (monotonic-clock instants); cooperative asyncio execution of a
streaming tool is modelled by the arrival schedule of its produced
values; Python exceptions become `Except` errors; Python object
identity (`id()`) becomes a `Nat` tag.
-/

set_option maxHeartbeats 1000000

namespace Pygents

/-- Opaque payload carried by context items and tool results. -/
inductive Val where
  | nat (n : Nat)
  | str (s : String)
  deriving DecidableEq, Repr

/-- `ContextItem` from context.py: immutable content plus optional
description and optional identifier (`id` present ⇒ pool-bound,
absent ⇒ queue-bound). -/
structure ContextItem where
  content : Val
  description : Option String := none
  id : Option String := none
  deriving DecidableEq, Repr

/-! ## ContextPool (context.py, class ContextPool) -/

/-- Hook invocations fired by `ContextPool.add` (context.py lines 470-485):
before-add, then after-add.  (The intended on-evict firing can never happen:
see `ContextPool.add`.) -/
inductive PoolHookEvent where
  | beforeAdd (it : ContextItem)
  | afterAdd (it : ContextItem)
  deriving DecidableEq, Repr

/-- `ContextPool.add` failures: `ValueError` when the item lacks an id or a
description (context.py lines 471-474), and the `AttributeError` raised when
the code references `ContextPoolHook.ON_EVICT`, a member the enum of
hooks.py lines 47-53 does not declare. -/
inductive PoolError where
  | missingIdOrDescription
  | attributeError (missing : String)
  deriving DecidableEq, Repr

/-- The pool's insertion-ordered `id → item` dict (`self._items`) plus the
optional capacity (`self._limit`).  A Python 3.7+ dict iterates in insertion
order, so the dict is an association list: oldest entry first. -/
structure ContextPool where
  limit : Option Nat := none
  items : List (String × ContextItem) := []
  deriving DecidableEq, Repr

/-- The identifiers currently in the pool, in insertion order. -/
def ContextPool.keys (p : ContextPool) : List String :=
  p.items.map Prod.fst

/-- `len(self._items)`. -/
def ContextPool.size (p : ContextPool) : Nat :=
  p.items.length

/-- Python dict assignment `d[k] = v`: an existing key keeps its position
(its value is replaced in place); a new key is appended at the end. -/
def dictSet (m : List (String × ContextItem)) (k : String) (v : ContextItem) :
    List (String × ContextItem) :=
  if k ∈ m.map Prod.fst then
    m.map (fun kv => if kv.1 = k then (k, v) else kv)
  else
    m ++ [(k, v)]

/-- `ContextPool.add` (context.py lines 470-485): reject items without id or
description; when the pool is bounded, the id is new and the pool is at (or
above) capacity, the code intends to evict the oldest entry but first
evaluates `ContextPoolHook.ON_EVICT` (context.py line 481) — a member the
`ContextPoolHook` enum (hooks.py lines 47-53) does not declare — so Python
raises `AttributeError` there, before the deletion and the insertion: the
pool is left unchanged.  Otherwise fire before-add, insert, and fire
after-add (both those members exist).  Returns the new pool together with
the hook invocations in firing order. -/
def ContextPool.add (p : ContextPool) (it : ContextItem) :
    Except PoolError (ContextPool × List PoolHookEvent) :=
  match it.id, it.description with
  | some i, some _ =>
    let evict : Bool :=
      match p.limit with
      | none => false
      | some c => !(decide (i ∈ p.keys)) && decide (c ≤ p.items.length)
    if evict then
      Except.error (PoolError.attributeError "ContextPoolHook.ON_EVICT")
    else
      Except.ok ({ p with items := dictSet p.items i it },
        [PoolHookEvent.beforeAdd it, PoolHookEvent.afterAdd it])
  | _, _ => Except.error PoolError.missingIdOrDescription

/-! ## ContextQueue (context.py, class ContextQueue) -/

/-- Hook invocations fired by `ContextQueue.append` (context.py lines 188-210):
before-append with the incoming items and a snapshot of the current contents,
after-append with the resulting contents.  (The intended on-evict firing can
never happen: see `cqStep`.) -/
inductive QueueHookEvent where
  | beforeAppend (incoming current : List ContextItem)
  | afterAppend (incoming current : List ContextItem)
  deriving DecidableEq, Repr

/-- `ContextQueue.append` failure: the `AttributeError` raised when the code
references `ContextQueueHook.ON_EVICT`, a member the enum of hooks.py
lines 42-44 does not declare. -/
inductive QueueError where
  | attributeError (missing : String)
  deriving DecidableEq, Repr

/-- The bounded FIFO window: `deque(maxlen=limit)` holding oldest first. -/
structure ContextQueue where
  limit : Nat
  items : List ContextItem := []
  deriving DecidableEq, Repr

/-- One iteration of the append loop (context.py lines 203-207).  When the
deque is full the code intends to fire on-evict for the displaced oldest
item, but evaluating `ContextQueueHook.ON_EVICT` (context.py line 206) --
a member the `ContextQueueHook` enum (hooks.py lines 42-44) does not
declare -- raises `AttributeError` before the append: items appended by
earlier iterations of the same call remain in the deque, and once the
exception is raised no further iteration runs. -/
def cqStep (limit : Nat)
    (st : List ContextItem × List QueueHookEvent × Option QueueError)
    (it : ContextItem) :
    List ContextItem × List QueueHookEvent × Option QueueError :=
  match st.2.2 with
  | some _ => st
  | none =>
    if st.1.length = limit then
      (st.1, st.2.1, some (QueueError.attributeError "ContextQueueHook.ON_EVICT"))
    else
      (st.1 ++ [it], st.2.1, none)

/-- `ContextQueue.append(*items)` (context.py lines 188-210): fire
before-append with a snapshot of the current contents, then append item by
item; the first overflow raises `AttributeError` (missing ON_EVICT member),
the already-appended items staying in the deque and after-append never
firing.  The Lean type already guarantees every argument is a
`ContextItem`, so the `TypeError` branch is unreachable here.  Returns the
new queue, the hook invocations in firing order, and the raised exception
when an iteration overflowed. -/
def ContextQueue.append (q : ContextQueue) (its : List ContextItem) :
    ContextQueue × List QueueHookEvent × Option QueueError :=
  let st := its.foldl (cqStep q.limit)
    (q.items, [QueueHookEvent.beforeAppend its q.items], none)
  match st.2.2 with
  | some e => ({ q with items := st.1 }, st.2.1, some e)
  | none =>
    ({ q with items := st.1 },
     st.2.1 ++ [QueueHookEvent.afterAppend its st.1], none)

/-! ## Registries (registry.py)

`BaseRegistry.register` (registry.py lines 30-38) stores items keyed by a
name attribute; registered objects are modelled by their Python identity
(`id()`), a `Nat`.  A class-level `_allow_reregister` flag controls whether
registering the very same instance again is a no-op: it defaults to `False`
and only `HookRegistry` sets it to `True`. -/

/-- Registry failures: `ValueError("... already registered")` on a name
collision, and the per-registry `Unregistered*Error` on a lookup miss
(registry.py lines 37 and 44). -/
inductive RegError where
  | duplicate (key : String)
  | notFound (key : String)
  deriving DecidableEq, Repr

/-- A registry's `_registry` dict: name → object identity. -/
structure RegistryState where
  entries : List (String × Nat) := []
  deriving DecidableEq, Repr

/-- `cls._registry.get(key)`. -/
def regLookup (reg : RegistryState) (k : String) : Option Nat :=
  (reg.entries.find? (fun e => e.1 == k)).map Prod.snd

/-- `BaseRegistry.register` (registry.py lines 30-38): on a name collision,
succeed as a no-op only when `_allow_reregister` is set and the existing
entry is the identical instance; otherwise raise
`ValueError(f"{key!r} already registered")`. -/
def registryRegister (allowReregister : Bool) (reg : RegistryState)
    (key : String) (obj : Nat) : Except RegError RegistryState :=
  match regLookup reg key with
  | some existing =>
    if allowReregister && existing == obj then Except.ok reg
    else Except.error (RegError.duplicate key)
  | none => Except.ok { entries := reg.entries ++ [(key, obj)] }

/-- `BaseRegistry.get` (registry.py lines 40-45). -/
def registryGet (reg : RegistryState) (key : String) : Except RegError Nat :=
  match regLookup reg key with
  | some v => Except.ok v
  | none => Except.error (RegError.notFound key)

/-- `ToolRegistry` (registry.py lines 48-58) inherits the default
`_allow_reregister = False`. -/
def toolRegistryAllowReregister : Bool := false

/-- `AgentRegistry` (registry.py lines 61-66) inherits the default
`_allow_reregister = False`. -/
def agentRegistryAllowReregister : Bool := false

/-- `HookRegistry` (registry.py line 75) sets `_allow_reregister = True`. -/
def hookRegistryAllowReregister : Bool := true

/-! ## Tools and Turn construction (tool.py / turn.py) -/

/-- A registered `Tool`/`AsyncGenTool` instance: its registry name and its
invocation kind (`inspect.isasyncgenfunction(tool.fn)` distinguishes a
streaming tool from a single-result one). -/
structure Tool where
  name : String
  isAsyncGen : Bool
  deriving DecidableEq, Repr

/-- The `ToolRegistry._registry` dict: name → Tool instance. -/
structure ToolRegistryState where
  tools : List (String × Tool) := []
  deriving DecidableEq, Repr

/-- `ToolRegistry._registry.get(name)`. -/
def toolLookup (r : ToolRegistryState) (name : String) : Option Tool :=
  (r.tools.find? (fun e => e.1 == name)).map Prod.snd

/-- `ToolRegistry.get(name)`: `UnregisteredToolError(f"{name!r} not found")`
on a miss (registry.py lines 40-45). -/
def ToolRegistryState.get (r : ToolRegistryState) (name : String) :
    Except RegError Tool :=
  match toolLookup r name with
  | some t => Except.ok t
  | none => Except.error (RegError.notFound name)

/-- The part of a constructed `Turn` fixed at `__init__`: the resolved Tool
instance and the timeout.  (A callable argument to `Turn(...)` is resolved
through its `__name__`, so the constructor input reduces to a name.) -/
structure TurnCfg where
  tool : Tool
  timeoutSecs : Nat
  deriving DecidableEq, Repr

/-- `Turn.__init__` (turn.py lines 109-129): the tool name is resolved
through `ToolRegistry.get` *at construction time*; the resolved instance is
stored in `self.tool`. -/
def turnInit (r : ToolRegistryState) (toolName : String) (timeoutSecs : Nat) :
    Except RegError TurnCfg :=
  match r.get toolName with
  | Except.ok t => Except.ok { tool := t, timeoutSecs := timeoutSecs }
  | Except.error e => Except.error e

/-! ## Turn execution state machine (turn.py) -/

/-- `StopReason` (turn.py lines 26-30). -/
inductive StopReason where
  | completed
  | timeout
  | error
  | cancelled
  deriving DecidableEq, Repr

/-- `TurnHook` (hooks.py lines 18-24): the turn-level hook event types the
code declares.  (The enum has no on-complete member.) -/
inductive TurnHookT where
  | beforeRun
  | afterRun
  | onTimeout
  | onError
  | onValue
  deriving DecidableEq, Repr

/-- Errors escaping `returning()`/`yielding()`:
`TurnTimeoutError`, `WrongRunMethodError`, an arbitrary tool-body exception
(tagged by a code), and `SafeExecutionError` naming the attempted call
(utils.py lines 26-46, turn.py lines 94-107). -/
inductive TurnErr where
  | turnTimeout (timeoutSecs : Nat)
  | wrongRunMethod
  | toolFailure (code : Nat)
  | safeExecution (attempted : String)
  deriving DecidableEq, Repr

/-- A Turn's single-result or aggregated streaming output. -/
inductive TurnOutputV where
  | single (v : Val)
  | list (vs : List Val)
  deriving DecidableEq, Repr

/-- The mutable outcome fields of a `Turn` (turn.py: `_is_running`,
`metadata.start_time`, `metadata.end_time`, `metadata.stop_reason`,
`output`). -/
structure TurnState where
  isRunning : Bool := false
  startTime : Option Nat := none
  endTime : Option Nat := none
  stopReason : Option StopReason := none
  output : Option TurnOutputV := none
  deriving DecidableEq, Repr

/-- Observable steps of one `returning()`/`yielding()` run, in order:
hooks fired, the tool body being invoked, the producer task being
cancelled on the streaming timeout path. -/
inductive TurnEv where
  | hookFired (h : TurnHookT)
  | toolInvoked
  | producerCancelled
  deriving DecidableEq, Repr

deriving instance DecidableEq for Except

/-- Result of one run: the turn's final outcome fields, the observable
trace, and the returned value or raised error. -/
structure RunOutcome where
  state : TurnState
  trace : List TurnEv
  result : Except TurnErr TurnOutputV
  deriving DecidableEq, Repr

/-- Behaviour of a single-result tool body: it either completes with a value
after `duration` seconds or raises after `duration` seconds. -/
inductive ToolRun where
  | completes (duration : Nat) (value : Val)
  | raises (duration : Nat) (code : Nat)
  deriving DecidableEq, Repr

/-- Body of `Turn.returning` (turn.py lines 143-179), entered with the
reentrancy guard already passed.  `t0` is the clock at entry.
`asyncio.wait_for(..., timeout)` is modelled as: the body's result is seen
iff its duration is strictly below the timeout, else `TimeoutError`.
The `finally` block records the end time and clears the running flag on
every path; it fires no hook. -/
def runReturningBody (t0 timeoutSecs : Nat) (toolIsAsyncGen : Bool)
    (toolRun : ToolRun) (s : TurnState) : RunOutcome :=
  let s1 : TurnState := { s with isRunning := true, startTime := some t0 }
  if toolIsAsyncGen then
    -- WrongRunMethodError raised inside the try: the generic except branch
    -- records ERROR, fires on-error and re-raises (turn.py lines 153-156, 173-176)
    { state := { s1 with
        stopReason := some StopReason.error
        endTime := some t0
        isRunning := false }
      trace := [TurnEv.hookFired TurnHookT.beforeRun, TurnEv.hookFired TurnHookT.onError]
      result := Except.error TurnErr.wrongRunMethod }
  else
    match toolRun with
    | ToolRun.completes d v =>
      if d < timeoutSecs then
        { state := { s1 with
            output := some (TurnOutputV.single v)
            stopReason := some StopReason.completed
            endTime := some (t0 + d)
            isRunning := false }
          trace := [TurnEv.hookFired TurnHookT.beforeRun, TurnEv.toolInvoked,
                    TurnEv.hookFired TurnHookT.afterRun]
          result := Except.ok (TurnOutputV.single v) }
      else
        { state := { s1 with
            stopReason := some StopReason.timeout
            endTime := some (t0 + timeoutSecs)
            isRunning := false }
          trace := [TurnEv.hookFired TurnHookT.beforeRun, TurnEv.toolInvoked,
                    TurnEv.hookFired TurnHookT.onTimeout]
          result := Except.error (TurnErr.turnTimeout timeoutSecs) }
    | ToolRun.raises d code =>
      if d < timeoutSecs then
        { state := { s1 with
            stopReason := some StopReason.error
            endTime := some (t0 + d)
            isRunning := false }
          trace := [TurnEv.hookFired TurnHookT.beforeRun, TurnEv.toolInvoked,
                    TurnEv.hookFired TurnHookT.onError]
          result := Except.error (TurnErr.toolFailure code) }
      else
        { state := { s1 with
            stopReason := some StopReason.timeout
            endTime := some (t0 + timeoutSecs)
            isRunning := false }
          trace := [TurnEv.hookFired TurnHookT.beforeRun, TurnEv.toolInvoked,
                    TurnEv.hookFired TurnHookT.onTimeout]
          result := Except.error (TurnErr.turnTimeout timeoutSecs) }

/-- `Turn.returning` with its `@safe_execution` guard (utils.py lines 39-46):
a call on an already-running turn raises `SafeExecutionError` naming the
attempted call, before anything in the body runs. -/
def Turn.returning (t0 timeoutSecs : Nat) (toolIsAsyncGen : Bool)
    (toolRun : ToolRun) (s : TurnState) : RunOutcome :=
  if s.isRunning then
    { state := s, trace := [], result := Except.error (TurnErr.safeExecution "returning") }
  else
    runReturningBody t0 timeoutSecs toolIsAsyncGen toolRun s

/-! ### Streaming protocol (`Turn.yielding`, turn.py lines 181-259)

The background producer pulls values from the tool body and pushes each into
the internal queue, pushing the sentinel in a `finally` on exhaustion or
failure.  Under the cooperative single-thread model the producer is fully
described by the arrival schedule of its pushes. -/

/-- How the producer terminates: the async generator is exhausted, or its
body raises (the exception is re-raised by `await producer`). -/
inductive ProducerEnd where
  | exhausted
  | failed (code : Nat)
  deriving DecidableEq, Repr

/-- The producer's observable schedule: each produced value with the
monotonic instant at which it reaches the internal queue, then the sentinel
at `endTime`. -/
structure StreamTrace where
  events : List (Nat × Val) := []
  endTime : Nat
  endKind : ProducerEnd := ProducerEnd.exhausted
  deriving DecidableEq, Repr

/-- How the foreground loop (turn.py lines 213-232) stops consuming. -/
inductive LoopOutcome where
  | timedOut
  | gotSentinel
  deriving DecidableEq, Repr

/-- The foreground loop of `yielding` (turn.py lines 211-232): the deadline
is fixed before the loop; each iteration checks the remaining time and then
waits for the next queued value bounded by that remaining time.  A value is
received iff it arrives strictly before the deadline (`asyncio.wait_for`
with `timeout=remaining` started at `now` expires at the deadline).
Returns (accumulated-and-yielded values, outcome, loop finish instant). -/
def yieldLoop (deadline endTime : Nat) :
    Nat → List (Nat × Val) → List Val → List Val × LoopOutcome × Nat
  | now, evs, acc =>
    if deadline ≤ now then
      (acc, LoopOutcome.timedOut, now)
    else
      match evs with
      | [] =>
        if endTime < deadline then (acc, LoopOutcome.gotSentinel, endTime)
        else (acc, LoopOutcome.timedOut, deadline)
      | (a, v) :: rest =>
        if a < deadline then yieldLoop deadline endTime a rest (acc ++ [v])
        else (acc, LoopOutcome.timedOut, deadline)

/-- Inter-arrival bound: starting from `prev`, each listed instant follows
the previous one, with every gap strictly below `T` ("each value
individually arrives quickly"). -/
def gapsOk (T : Nat) : Nat → List Nat → Bool
  | _, [] => true
  | prev, a :: rest => (decide (prev ≤ a) && decide (a - prev < T)) && gapsOk T a rest

/-- Body of `Turn.yielding` (turn.py lines 181-259), entered with the
reentrancy guard already passed.  The second component of the result is the
list of values yielded onward to the consumer, in order.  On the timeout
path the producer is cancelled and awaited, on-timeout fires and
`TurnTimeoutError` is raised; a producer exception takes the on-error path;
`self.output` is assigned the accumulator only on the completed path
(turn.py line 246).  The `finally` records the end time and clears the
running flag on every path; it fires no hook. -/
def runYieldingBody (t0 timeoutSecs : Nat) (toolIsAsyncGen : Bool)
    (stream : StreamTrace) (s : TurnState) : RunOutcome × List Val :=
  let s1 : TurnState := { s with isRunning := true, startTime := some t0 }
  if !toolIsAsyncGen then
    -- WrongRunMethodError for a single-result tool (turn.py lines 191-194)
    ({ state := { s1 with
         stopReason := some StopReason.error
         endTime := some t0
         isRunning := false }
       trace := [TurnEv.hookFired TurnHookT.beforeRun, TurnEv.hookFired TurnHookT.onError]
       result := Except.error TurnErr.wrongRunMethod }, [])
  else
    let deadline := t0 + timeoutSecs
    let r := yieldLoop deadline stream.endTime t0 stream.events []
    match r.2.1 with
    | LoopOutcome.timedOut =>
      ({ state := { s1 with
           stopReason := some StopReason.timeout
           endTime := some r.2.2
           isRunning := false }
         trace := [TurnEv.hookFired TurnHookT.beforeRun, TurnEv.toolInvoked,
                   TurnEv.producerCancelled, TurnEv.hookFired TurnHookT.onTimeout]
         result := Except.error (TurnErr.turnTimeout timeoutSecs) }, r.1)
    | LoopOutcome.gotSentinel =>
      match stream.endKind with
      | ProducerEnd.failed code =>
        -- the sentinel was reached, `await producer` re-raises the body's
        -- exception: ERROR path (turn.py lines 232, 253-256)
        ({ state := { s1 with
             stopReason := some StopReason.error
             endTime := some r.2.2
             isRunning := false }
           trace := [TurnEv.hookFired TurnHookT.beforeRun, TurnEv.toolInvoked,
                     TurnEv.hookFired TurnHookT.onError]
           result := Except.error (TurnErr.toolFailure code) }, r.1)
      | ProducerEnd.exhausted =>
        ({ state := { s1 with
             output := some (TurnOutputV.list r.1)
             stopReason := some StopReason.completed
             endTime := some r.2.2
             isRunning := false }
           trace := [TurnEv.hookFired TurnHookT.beforeRun, TurnEv.toolInvoked,
                     TurnEv.hookFired TurnHookT.afterRun]
           result := Except.ok (TurnOutputV.list r.1) }, r.1)

/-- `Turn.yielding` with its `@safe_execution` guard (utils.py lines 27-37):
a call on an already-running turn raises `SafeExecutionError` naming the
attempted call, before anything in the body runs and before any value is
produced. -/
def Turn.yielding (t0 timeoutSecs : Nat) (toolIsAsyncGen : Bool)
    (stream : StreamTrace) (s : TurnState) : RunOutcome × List Val :=
  if s.isRunning then
    ({ state := s, trace := [], result := Except.error (TurnErr.safeExecution "yielding") }, [])
  else
    runYieldingBody t0 timeoutSecs toolIsAsyncGen stream s

/-! ### The `Turn.__setattr__` mutation guard (turn.py lines 94-107) -/

/-- The outcome-tracking fields writable while the turn is running
(turn.py lines 95-102). -/
def mutableWhileRunning : List String :=
  ["_is_running", "start_time", "end_time", "output", "stop_reason", "metadata"]

/-- `Turn.__setattr__`: while `_is_running` is set, writing any field outside
`mutableWhileRunning` raises `SafeExecutionError` naming the field. -/
def turnSetattr (s : TurnState) (field : String) : Except TurnErr Unit :=
  if !(decide (field ∈ mutableWhileRunning)) && s.isRunning then
    Except.error (TurnErr.safeExecution field)
  else
    Except.ok ()

/-! ## Hook dispatch (registry.py, `HookRegistry.fire`, lines 94-123) -/

/-- The hook event types relevant to dispatch; matching is by identity of
the event-type member. -/
inductive HookEventType where
  | beforeRun
  | afterRun
  | onTimeout
  | onError
  | onValue
  deriving DecidableEq, Repr

/-- A hook as seen by the dispatcher: its Python object identity (`id(h)`),
its stored `type` (one or several event types; the empty list models
`type is None`), and its optional tag set (`getattr(h, "tags", None)`). -/
structure GHook where
  hid : Nat
  types : List HookEventType := []
  tags : Option (List String) := none
  deriving DecidableEq, Repr

/-- `HookRegistry.get_by_type` (registry.py lines 165-181): every hook in
the list whose stored type equals, or (for multi-type hooks) contains, the
event type, in order. -/
def getByType (t : HookEventType) (hooks : List GHook) : List GHook :=
  hooks.filter (fun h => decide (t ∈ h.types))

/-- The tag filter inside `fire` (registry.py lines 121-122):
`hook_tags is None or (_source_tags and hook_tags & _source_tags)`. -/
def tagsAllow (tags : Option (List String)) (srcTags : List String) : Bool :=
  match tags with
  | none => true
  | some ts => !srcTags.isEmpty && ts.any (fun s => decide (s ∈ srcTags))

/-- `HookRegistry.fire` (registry.py lines 94-123): invoke the instance
hooks first, in list order, recording each identity; then invoke every
globally registered hook matching the event type that passes the tag filter,
skipping any whose identity already fired.  Returns the hooks in invocation
order. -/
def HookRegistry.fire (t : HookEventType) (instanceHooks globalHooks : List GHook)
    (srcTags : List String) : List GHook :=
  let firedIds := instanceHooks.map GHook.hid
  instanceHooks ++ (getByType t globalHooks).filter
    (fun h => !(decide (h.hid ∈ firedIds)) && tagsAllow h.tags srcTags)

/-! ## Agent output routing (agent.py, `_route_value` lines 154-161 and
`run` lines 470-486) -/

/-- A value produced by a Turn, as discriminated by the `isinstance` tests
in `Agent._route_value` and `Agent.run`: a context item, a chained `Turn`
(identified by its tool's registry name), or anything else. -/
inductive RValue where
  | ctxItem (it : ContextItem)
  | turnV (toolName : String)
  | other (v : Val)
  deriving DecidableEq, Repr

/-- The Agent state the routing step touches: the accepted tool-name set,
the context pool, the context queue and the pending Turn queue. -/
structure AgentState where
  toolNames : List String := []
  pool : ContextPool := {}
  queue : ContextQueue
  turnQueue : List String := []
  deriving DecidableEq, Repr

/-- Failures escaping the routing step: an exception out of
`ContextPool.add` or `ContextQueue.append`, and `Agent.put`'s `ValueError`
for a tool outside the accepted set. -/
inductive AgentErr where
  | poolErr (e : PoolError)
  | queueErr (e : QueueError)
  | putRejected (toolName : String)
  deriving DecidableEq, Repr

/-- `Agent.put` (agent.py lines 353-375): reject a Turn whose tool name is
outside this agent's accepted set, otherwise enqueue it. -/
def AgentState.put (a : AgentState) (toolName : String) :
    Except AgentErr AgentState :=
  if toolName ∈ a.toolNames then
    Except.ok { a with turnQueue := a.turnQueue ++ [toolName] }
  else
    Except.error (AgentErr.putRejected toolName)

/-- `Agent._route_value` (agent.py lines 154-161): a context item without an
id is appended to the context queue; a context item with an id is added to
the context pool; a Turn is enqueued via `put` on this same agent; any other
value leaves the state untouched.  Exceptions out of the containers
propagate (for the single-item append used here, the overflow raise happens
before any append, so the queue is unchanged when the error escapes). -/
def AgentState.routeValue (a : AgentState) (v : RValue) :
    Except AgentErr AgentState :=
  match v with
  | RValue.ctxItem it =>
    if it.id = none then
      match a.queue.append [it] with
      | (q', _, none) => Except.ok { a with queue := q' }
      | (_, _, some e) => Except.error (AgentErr.queueErr e)
    else
      match a.pool.add it with
      | Except.ok (p, _) => Except.ok { a with pool := p }
      | Except.error e => Except.error (AgentErr.poolErr e)
  | RValue.turnV t => a.put t
  | RValue.other _ => Except.ok a

/-- The per-value step of `Agent.run` (agent.py lines 470-486): route the
value, then forward it to the agent's caller unless it is a `ContextItem` or
a `Turn` (`if not isinstance(value, (ContextItem, Turn)): yield`).  Returns
the new state and the values forwarded to the caller. -/
def AgentState.processValue (a : AgentState) (v : RValue) :
    Except AgentErr (AgentState × List RValue) :=
  match a.routeValue v with
  | Except.error e => Except.error e
  | Except.ok a' =>
    match v with
    | RValue.ctxItem _ => Except.ok (a', [])
    | RValue.turnV _ => Except.ok (a', [])
    | RValue.other _ => Except.ok (a', [v])

/-! ## Concrete instances used by the witnesses -/

/-- A registered single-result tool. -/
def wTool : Tool := { name := "add", isAsyncGen := false }

/-- A tool registry holding `wTool`. -/
def wToolReg : ToolRegistryState := { tools := [("add", wTool)] }

/-- A registry state with one entry, object identity 7, under name "add". -/
def wReg : RegistryState := { entries := [("add", 7)] }

/-- Pool-bound items (id and description present) used by the witnesses. -/
def wItemA : ContextItem := { content := Val.nat 1, description := some "da", id := some "a" }

def wItemB : ContextItem := { content := Val.nat 2, description := some "db", id := some "b" }

def wItemC : ContextItem := { content := Val.nat 3, description := some "dc", id := some "c" }

/-- A capacity-2 pool already holding ids a and b (at capacity). -/
def wPool : ContextPool := { limit := some 2, items := [("a", wItemA), ("b", wItemB)] }

/-- A queue-bound item (no id). -/
def wItemNoId : ContextItem := { content := Val.nat 9 }

/-- Hooks for the C6 witness: identity 1 registered both as an instance hook
and globally; identity 2 global-only, matching, untagged; identity 3
global-only with a non-matching event type. -/
def wHook1 : GHook := { hid := 1, types := [HookEventType.beforeRun] }

def wHook2 : GHook := { hid := 2, types := [HookEventType.beforeRun] }

def wHook3 : GHook := { hid := 3, types := [HookEventType.afterRun] }

/-- An agent with room in both containers. -/
def wAgent : AgentState :=
  { toolNames := ["add"], pool := { limit := some 2 }, queue := { limit := 2 } }

/-- An agent whose pool and queue are both at capacity: the steady state any
long-running agent reaches. -/
def wAgentFull : AgentState :=
  { toolNames := ["add"],
    pool := { limit := some 2, items := [("a", wItemA), ("b", wItemB)] },
    queue := { limit := 1, items := [wItemNoId] } }

/-! # Claims -/

/-- C9 counterexample: on `ToolRegistry` (which inherits the default
`_allow_reregister = False`), re-registering the *identical* instance under
its own name raises `ValueError("already registered")` instead of being a
no-op.  The repo's own test
(`test_register_duplicate_name_raises_value_error`) expects exactly this
error for the identical instance. -/
theorem C9_reregister_counterexample :
    registryRegister toolRegistryAllowReregister wReg "add" 7 =
      Except.error (RegError.duplicate "add") := by decide

/-- C9 (amended): identical-instance re-registration is a no-op only for
`HookRegistry` (`_allow_reregister = True`); for `ToolRegistry` and
`AgentRegistry` any registration under a taken name fails with the
duplicate-name `ValueError`, identical instance or not; in every registry a
*different* object under a taken name fails, and a failed registration
leaves the registry unchanged (the error is raised before any insertion). -/
theorem C9_register_semantics_amended (reg : RegistryState) (k : String) (x y : Nat)
    (hx : regLookup reg k = some x) (hxy : y ≠ x) :
    registryRegister hookRegistryAllowReregister reg k x = Except.ok reg ∧
    registryRegister toolRegistryAllowReregister reg k x =
      Except.error (RegError.duplicate k) ∧
    registryRegister agentRegistryAllowReregister reg k x =
      Except.error (RegError.duplicate k) ∧
    (∀ allowRe : Bool, registryRegister allowRe reg k y =
      Except.error (RegError.duplicate k)) := by
  have hyx : (x == y) = false := by
    simp [beq_iff_eq]
    exact fun h => hxy h.symm
  refine ⟨?_, ?_, ?_, ?_⟩
  · simp [registryRegister, hx, hookRegistryAllowReregister]
  · simp [registryRegister, hx, toolRegistryAllowReregister]
  · simp [registryRegister, hx, agentRegistryAllowReregister]
  · intro allowRe
    simp [registryRegister, hx, hyx]

/-- Witness for C9's amended theorem at a concrete registry. -/
theorem C9_register_semantics_amended_witness :
    regLookup wReg "add" = some 7 ∧ (9 : Nat) ≠ 7 ∧
    registryRegister hookRegistryAllowReregister wReg "add" 7 = Except.ok wReg ∧
    registryRegister toolRegistryAllowReregister wReg "add" 9 =
      Except.error (RegError.duplicate "add") :=
  ⟨by decide, by decide,
   (C9_register_semantics_amended wReg "add" 7 9 (by decide) (by decide)).1,
   (C9_register_semantics_amended wReg "add" 7 9 (by decide) (by decide)).2.2.2 false⟩

/-- C10: `Turn.__init__` resolves its tool against the ToolRegistry at
construction time: an unregistered name fails immediately with the
registry's not-found error (before `returning()`/`yielding()` could ever
run), and a successfully constructed Turn holds the resolved registered
Tool instance, not an unresolved name. -/
theorem C10_turn_init_eager_resolution (r : ToolRegistryState) (name : String)
    (timeoutSecs : Nat) :
    (toolLookup r name = none →
      turnInit r name timeoutSecs = Except.error (RegError.notFound name)) ∧
    (∀ cfg : TurnCfg, turnInit r name timeoutSecs = Except.ok cfg →
      toolLookup r name = some cfg.tool ∧ cfg.timeoutSecs = timeoutSecs) := by
  constructor
  · intro h
    simp [turnInit, ToolRegistryState.get, h]
  · intro cfg h
    unfold turnInit ToolRegistryState.get at h
    cases hl : toolLookup r name with
    | none => rw [hl] at h; cases h
    | some t =>
      rw [hl] at h
      cases h
      exact ⟨rfl, rfl⟩

/-- Witness for C10 at a concrete registry: a missing name fails at
construction; a registered name yields a Turn holding the registered
instance. -/
theorem C10_turn_init_eager_resolution_witness :
    toolLookup wToolReg "missing" = none ∧
    turnInit wToolReg "missing" 60 = Except.error (RegError.notFound "missing") ∧
    turnInit wToolReg "add" 60 = Except.ok { tool := wTool, timeoutSecs := 60 } ∧
    toolLookup wToolReg "add" = some wTool :=
  ⟨by decide,
   (C10_turn_init_eager_resolution wToolReg "missing" 60).1 (by decide),
   by decide,
   ((C10_turn_init_eager_resolution wToolReg "add" 60).2
      { tool := wTool, timeoutSecs := 60 } (by decide)).1⟩

/-- C7: calling `returning()` or `yielding()` on a running Turn always fails
immediately with the `SafeExecutionError` reentrancy guard naming the
attempted call, with an empty observable trace (in particular no tool-body
invocation); and `Turn.__setattr__` rejects, while running, any write to a
field outside the outcome-tracking set while allowing writes inside it. -/
theorem C7_reentrancy_and_setattr_guard (s : TurnState) (t0 T : Nat) (g : Bool)
    (tr : ToolRun) (st : StreamTrace) (f f' : String)
    (hrun : s.isRunning = true) :
    Turn.returning t0 T g tr s =
      { state := s, trace := [],
        result := Except.error (TurnErr.safeExecution "returning") } ∧
    TurnEv.toolInvoked ∉ (Turn.returning t0 T g tr s).trace ∧
    Turn.yielding t0 T g st s =
      ({ state := s, trace := [],
         result := Except.error (TurnErr.safeExecution "yielding") }, []) ∧
    TurnEv.toolInvoked ∉ (Turn.yielding t0 T g st s).1.trace ∧
    (f ∉ mutableWhileRunning →
      turnSetattr s f = Except.error (TurnErr.safeExecution f)) ∧
    (f' ∈ mutableWhileRunning → turnSetattr s f' = Except.ok ()) := by
  refine ⟨?_, ?_, ?_, ?_, ?_, ?_⟩
  · simp [Turn.returning, hrun]
  · simp [Turn.returning, hrun]
  · simp [Turn.yielding, hrun]
  · simp [Turn.yielding, hrun]
  · intro h
    simp [turnSetattr, hrun, h]
  · intro h
    simp [turnSetattr, hrun, h]

/-- Witness for C7 at a concrete running Turn: the guards reject the calls
and the non-outcome write, and allow an outcome-field write. -/
theorem C7_reentrancy_and_setattr_guard_witness :
    (Turn.returning 0 60 false (ToolRun.completes 1 (Val.nat 3))
        { isRunning := true }).result =
      Except.error (TurnErr.safeExecution "returning") ∧
    (Turn.yielding 0 60 false { endTime := 5 } { isRunning := true }).1.result =
      Except.error (TurnErr.safeExecution "yielding") ∧
    turnSetattr { isRunning := true } "timeout" =
      Except.error (TurnErr.safeExecution "timeout") ∧
    turnSetattr { isRunning := true } "output" = Except.ok () := by
  have h := C7_reentrancy_and_setattr_guard { isRunning := true } 0 60 false
    (ToolRun.completes 1 (Val.nat 3)) { endTime := 5 } "timeout" "output" rfl
  refine ⟨?_, ?_, ?_, ?_⟩
  · rw [h.1]
  · rw [h.2.2.1]
  · exact h.2.2.2.2.1 (by decide)
  · exact h.2.2.2.2.2 (by decide)

/-- C4 (code behaviour at the failing inputs): on every exit path of
`returning()` and `yielding()` the guaranteed-cleanup `finally` does set the
end time and clear the running flag — but it fires no hook at all: the trace
ends with after-run / on-timeout / on-error, and no completion hook follows
(the `TurnHook` enum of hooks.py lines 18-24 has no on-complete member). -/
theorem C4_cleanup_fires_no_completion_hook :
    -- successful single-result run
    (Turn.returning 0 60 false (ToolRun.completes 1 (Val.nat 3)) {} =
      { state := { isRunning := false, startTime := some 0, endTime := some 1,
                   stopReason := some StopReason.completed,
                   output := some (TurnOutputV.single (Val.nat 3)) }
        trace := [TurnEv.hookFired TurnHookT.beforeRun, TurnEv.toolInvoked,
                  TurnEv.hookFired TurnHookT.afterRun]
        result := Except.ok (TurnOutputV.single (Val.nat 3)) }) ∧
    -- timed-out single-result run
    (Turn.returning 0 2 false (ToolRun.completes 5 (Val.nat 3)) {} =
      { state := { isRunning := false, startTime := some 0, endTime := some 2,
                   stopReason := some StopReason.timeout, output := none }
        trace := [TurnEv.hookFired TurnHookT.beforeRun, TurnEv.toolInvoked,
                  TurnEv.hookFired TurnHookT.onTimeout]
        result := Except.error (TurnErr.turnTimeout 2) }) ∧
    -- erroring single-result run
    (Turn.returning 0 60 false (ToolRun.raises 1 99) {} =
      { state := { isRunning := false, startTime := some 0, endTime := some 1,
                   stopReason := some StopReason.error, output := none }
        trace := [TurnEv.hookFired TurnHookT.beforeRun, TurnEv.toolInvoked,
                  TurnEv.hookFired TurnHookT.onError]
        result := Except.error (TurnErr.toolFailure 99) }) ∧
    -- timed-out streaming run
    (Turn.yielding 0 2 true { events := [(1, Val.nat 7)], endTime := 10 } {} =
      ({ state := { isRunning := false, startTime := some 0, endTime := some 2,
                    stopReason := some StopReason.timeout, output := none }
         trace := [TurnEv.hookFired TurnHookT.beforeRun, TurnEv.toolInvoked,
                   TurnEv.producerCancelled, TurnEv.hookFired TurnHookT.onTimeout]
         result := Except.error (TurnErr.turnTimeout 2) }, [Val.nat 7])) := by
  refine ⟨by decide, by decide, by decide, by decide⟩

/-- C2 (code behaviour at the failing input): adding an item with a *new*
id to a pool at capacity never performs the claimed evict-then-insert —
the code evaluates `ContextPoolHook.ON_EVICT` (context.py line 481), a
member the enum (hooks.py lines 47-53) does not declare, and the resulting
`AttributeError` escapes before the eviction and the insertion, leaving the
pool unchanged.  Below capacity, and for updates to an existing id, `add`
does succeed without evicting, exactly as the claim describes. -/
theorem C2_pool_add_at_capacity_attribute_error :
    -- failing input: capacity-2 pool holding ids a, b; new id c
    wPool.add wItemC =
      Except.error (PoolError.attributeError "ContextPoolHook.ON_EVICT") ∧
    -- existing id at capacity: update in place, no eviction, size unchanged
    wPool.add wItemB = Except.ok
      ({ wPool with items := [("a", wItemA), ("b", wItemB)] },
       [PoolHookEvent.beforeAdd wItemB, PoolHookEvent.afterAdd wItemB]) ∧
    -- new id below capacity: plain insertion at the end
    ({ limit := some 2, items := [("a", wItemA)] } : ContextPool).add wItemB =
      Except.ok
        ({ limit := some 2, items := [("a", wItemA), ("b", wItemB)] },
         [PoolHookEvent.beforeAdd wItemB, PoolHookEvent.afterAdd wItemB]) := by
  refine ⟨by decide, by decide, by decide⟩

/-- C8 (code behaviour at the failing input): appending N > C items to a
capacity-C queue never leaves the claimed trailing window of the last C
items — the first overflowing iteration evaluates
`ContextQueueHook.ON_EVICT` (context.py line 206), a member the enum
(hooks.py lines 42-44) does not declare, and the `AttributeError` escapes
with the deque stuck at the first C items; after-append never fires.
Appends within capacity do succeed. -/
theorem C8_queue_append_overflow_attribute_error :
    -- within capacity the append succeeds and after-append fires
    ({ limit := 2 } : ContextQueue).append [wItemA, wItemB] =
      ({ limit := 2, items := [wItemA, wItemB] },
       [QueueHookEvent.beforeAppend [wItemA, wItemB] [],
        QueueHookEvent.afterAppend [wItemA, wItemB] [wItemA, wItemB]], none) ∧
    -- failing input: three items into a capacity-2 queue
    ({ limit := 2 } : ContextQueue).append [wItemA, wItemB, wItemC] =
      ({ limit := 2, items := [wItemA, wItemB] },
       [QueueHookEvent.beforeAppend [wItemA, wItemB, wItemC] []],
       some (QueueError.attributeError "ContextQueueHook.ON_EVICT")) ∧
    -- the claimed last-2 window is not what remains
    (({ limit := 2 } : ContextQueue).append [wItemA, wItemB, wItemC]).1.items ≠
      [wItemB, wItemC] := by
  refine ⟨by decide, by decide, by decide⟩

/-! ## Streaming loop lemmas (for C1 and C5) -/

/-- Characterization of the foreground loop: starting strictly before the
deadline, it receives exactly the values that arrive strictly before the
deadline; it completes on the sentinel only when every value and the
sentinel arrive before the deadline, and otherwise times out at the
deadline. -/
theorem yieldLoop_spec (deadline endTime : Nat) (evs : List (Nat × Val)) :
    ∀ (now : Nat) (acc : List Val), now < deadline →
      yieldLoop deadline endTime now evs acc =
        (acc ++ (evs.takeWhile (fun e => decide (e.1 < deadline))).map Prod.snd,
         match evs.dropWhile (fun e => decide (e.1 < deadline)) with
         | [] =>
           if endTime < deadline then (LoopOutcome.gotSentinel, endTime)
           else (LoopOutcome.timedOut, deadline)
         | _ :: _ => (LoopOutcome.timedOut, deadline)) := by
  induction evs with
  | nil =>
    intro now acc h
    rw [yieldLoop]
    rw [if_neg (Nat.not_le.mpr h)]
    by_cases h2 : endTime < deadline <;> simp [h2]
  | cons e rest ih =>
    intro now acc h
    obtain ⟨a, v⟩ := e
    rw [yieldLoop]
    rw [if_neg (Nat.not_le.mpr h)]
    by_cases ha : a < deadline
    · rw [if_pos ha, ih a (acc ++ [v]) ha]
      rw [List.takeWhile_cons_of_pos (by simpa using ha),
        List.dropWhile_cons_of_pos (by simpa using ha)]
      simp
    · rw [if_neg ha]
      rw [List.takeWhile_cons_of_neg (by simpa using ha),
        List.dropWhile_cons_of_neg (by simpa using ha)]
      simp

/-- When the loop times out, `yielding` reports the Turn-timeout error with
stop reason TimedOut; the output field keeps its previous value and the
already-yielded values are exactly the loop's accumulator. -/
theorem runYielding_timedOut_parts (t0 T : Nat) (stream : StreamTrace)
    (s : TurnState) (hrun : s.isRunning = false)
    (hout : (yieldLoop (t0 + T) stream.endTime t0 stream.events []).2.1 =
      LoopOutcome.timedOut) :
    (Turn.yielding t0 T true stream s).1.result =
      Except.error (TurnErr.turnTimeout T) ∧
    (Turn.yielding t0 T true stream s).1.state.stopReason =
      some StopReason.timeout ∧
    (Turn.yielding t0 T true stream s).1.state.isRunning = false ∧
    (Turn.yielding t0 T true stream s).1.state.output = s.output ∧
    (Turn.yielding t0 T true stream s).2 =
      (yieldLoop (t0 + T) stream.endTime t0 stream.events []).1 := by
  unfold Turn.yielding runYieldingBody
  rw [hrun]
  simp only [Bool.false_eq_true, if_false, Bool.not_true, hout]
  simp

/-- When the sentinel is reached but the producer failed, `yielding` follows
the error path: the output field keeps its previous value and the
already-yielded values are exactly the loop's accumulator. -/
theorem runYielding_failed_parts (t0 T : Nat) (stream : StreamTrace)
    (s : TurnState) (code : Nat) (hrun : s.isRunning = false)
    (hkind : stream.endKind = ProducerEnd.failed code)
    (hsent : (yieldLoop (t0 + T) stream.endTime t0 stream.events []).2.1 =
      LoopOutcome.gotSentinel) :
    (Turn.yielding t0 T true stream s).1.result =
      Except.error (TurnErr.toolFailure code) ∧
    (Turn.yielding t0 T true stream s).1.state.stopReason =
      some StopReason.error ∧
    (Turn.yielding t0 T true stream s).1.state.output = s.output ∧
    (Turn.yielding t0 T true stream s).2 =
      (yieldLoop (t0 + T) stream.endTime t0 stream.events []).1 := by
  unfold Turn.yielding runYieldingBody
  rw [hrun]
  simp only [Bool.false_eq_true, if_false, Bool.not_true, hsent, hkind]
  simp

/-- When the sentinel is reached and the producer is exhausted, `yielding`
completes: the accumulator is stored in the output field and returned. -/
theorem runYielding_completed_parts (t0 T : Nat) (stream : StreamTrace)
    (s : TurnState) (hrun : s.isRunning = false)
    (hkind : stream.endKind = ProducerEnd.exhausted)
    (hsent : (yieldLoop (t0 + T) stream.endTime t0 stream.events []).2.1 =
      LoopOutcome.gotSentinel) :
    (Turn.yielding t0 T true stream s).1.result =
      Except.ok (TurnOutputV.list
        (yieldLoop (t0 + T) stream.endTime t0 stream.events []).1) ∧
    (Turn.yielding t0 T true stream s).1.state.output =
      some (TurnOutputV.list
        (yieldLoop (t0 + T) stream.endTime t0 stream.events []).1) := by
  unfold Turn.yielding runYieldingBody
  rw [hrun]
  simp only [Bool.false_eq_true, if_false, Bool.not_true, hsent, hkind]
  simp

/-- C1: `yielding()` fixes one wall-clock deadline (start + timeout) before
consuming and bounds every wait by the remaining time to it: a stream of
values each arriving quickly (every inter-arrival gap below the timeout, so
a per-item timeout would never fire) but with some value arriving at or
after start + timeout fails with the Turn-timeout error and stop reason
TimedOut. -/
theorem C1_yielding_aggregate_deadline (t0 T : Nat) (stream : StreamTrace)
    (s : TurnState) (hrun : s.isRunning = false) (hT : 0 < T)
    (_hquick : gapsOk T t0 (stream.events.map Prod.fst) = true)
    (hlate : stream.events.any (fun e => decide (t0 + T ≤ e.1)) = true) :
    (Turn.yielding t0 T true stream s).1.result =
      Except.error (TurnErr.turnTimeout T) ∧
    (Turn.yielding t0 T true stream s).1.state.stopReason =
      some StopReason.timeout ∧
    (Turn.yielding t0 T true stream s).1.state.isRunning = false := by
  have hne : stream.events.dropWhile (fun e => decide (e.1 < t0 + T)) ≠ [] := by
    intro hnil
    rw [List.dropWhile_eq_nil_iff] at hnil
    obtain ⟨e, hmem, hle⟩ := List.any_eq_true.mp hlate
    have h2 := hnil e hmem
    simp at h2 hle
    omega
  obtain ⟨x, xs, hdw⟩ := List.exists_cons_of_ne_nil hne
  have hloop := yieldLoop_spec (t0 + T) stream.endTime stream.events t0 []
    (by omega)
  rw [hdw] at hloop
  have hout : (yieldLoop (t0 + T) stream.endTime t0 stream.events []).2.1 =
      LoopOutcome.timedOut := by
    rw [hloop]
  have h := runYielding_timedOut_parts t0 T stream s hrun hout
  exact ⟨h.1, h.2.1, h.2.2.1⟩

/-- Witness for C1: two values arriving at instants 1 and 2 under timeout 2
— each gap is below the timeout, yet the aggregate run times out. -/
theorem C1_yielding_aggregate_deadline_witness :
    gapsOk 2 0 ([(1, Val.nat 1), (2, Val.nat 2)].map Prod.fst) = true ∧
    [(1, Val.nat 1), (2, Val.nat 2)].any (fun e => decide (0 + 2 ≤ e.1)) = true ∧
    (Turn.yielding 0 2 true
      { events := [(1, Val.nat 1), (2, Val.nat 2)], endTime := 3 } {}).1.result =
      Except.error (TurnErr.turnTimeout 2) ∧
    (Turn.yielding 0 2 true
      { events := [(1, Val.nat 1), (2, Val.nat 2)], endTime := 3 } {}).1.state.stopReason =
      some StopReason.timeout := by
  have h := C1_yielding_aggregate_deadline 0 2
    { events := [(1, Val.nat 1), (2, Val.nat 2)], endTime := 3 } {}
    rfl (by decide) (by decide) (by decide)
  exact ⟨by decide, by decide, h.1, h.2.1⟩

/-- C5 counterexample: a streaming Turn that yields one value at instant 1
and then stalls past its 10-second deadline raises the Turn-timeout error —
but its output field afterwards is `none`, not the list of the already
produced value: the accumulator is only assigned to `self.output` on the
completed path (turn.py line 246).  The value already forwarded to the
consumer is, however, not retracted. -/
theorem C5_output_counterexample :
    (Turn.yielding 0 10 true { events := [(1, Val.nat 42)], endTime := 100 } {}).2 =
      [Val.nat 42] ∧
    (Turn.yielding 0 10 true
      { events := [(1, Val.nat 42)], endTime := 100 } {}).1.result =
      Except.error (TurnErr.turnTimeout 10) ∧
    (Turn.yielding 0 10 true
      { events := [(1, Val.nat 42)], endTime := 100 } {}).1.state.output = none := by
  refine ⟨by decide, by decide, by decide⟩

/-- C5 (amended): when a streaming Turn times out or errors mid-stream, the
values already produced were all forwarded to the consumer (exactly those
arriving before the fixed deadline, in order — none is retracted), but the
Turn's output field is *not* updated: it keeps its prior value (`none`),
since the accumulator is stored only on successful completion. -/
theorem C5_partial_results_amended (t0 T : Nat) (stream : StreamTrace)
    (s : TurnState) (hrun : s.isRunning = false) (hout : s.output = none)
    (hT : 0 < T)
    (hfail : ∃ er, (Turn.yielding t0 T true stream s).1.result =
      Except.error er) :
    (Turn.yielding t0 T true stream s).1.state.output = none ∧
    (Turn.yielding t0 T true stream s).2 =
      (stream.events.takeWhile (fun e => decide (e.1 < t0 + T))).map Prod.snd := by
  have hloop := yieldLoop_spec (t0 + T) stream.endTime stream.events t0 []
    (by omega)
  have hacc : (yieldLoop (t0 + T) stream.endTime t0 stream.events []).1 =
      (stream.events.takeWhile (fun e => decide (e.1 < t0 + T))).map Prod.snd := by
    rw [hloop]
    simp
  cases hdw : stream.events.dropWhile (fun e => decide (e.1 < t0 + T)) with
  | cons x xs =>
    have houtc : (yieldLoop (t0 + T) stream.endTime t0 stream.events []).2.1 =
        LoopOutcome.timedOut := by
      rw [hloop, hdw]
    have h := runYielding_timedOut_parts t0 T stream s hrun houtc
    exact ⟨h.2.2.2.1.trans hout, h.2.2.2.2.trans hacc⟩
  | nil =>
    by_cases hend : stream.endTime < t0 + T
    · have hsent : (yieldLoop (t0 + T) stream.endTime t0 stream.events []).2.1 =
          LoopOutcome.gotSentinel := by
        rw [hloop, hdw]
        simp [hend]
      cases hkind : stream.endKind with
      | exhausted =>
        exfalso
        obtain ⟨er, herr⟩ := hfail
        have h := runYielding_completed_parts t0 T stream s hrun hkind hsent
        rw [h.1] at herr
        cases herr
      | failed code =>
        have h := runYielding_failed_parts t0 T stream s code hrun hkind hsent
        exact ⟨h.2.2.1.trans hout, h.2.2.2.trans hacc⟩
    · have houtc : (yieldLoop (t0 + T) stream.endTime t0 stream.events []).2.1 =
          LoopOutcome.timedOut := by
        rw [hloop, hdw]
        simp [hend]
      have h := runYielding_timedOut_parts t0 T stream s hrun houtc
      exact ⟨h.2.2.2.1.trans hout, h.2.2.2.2.trans hacc⟩

/-- Witness for C5's amended theorem at the concrete mid-stream-timeout
run. -/
theorem C5_partial_results_amended_witness :
    (∃ er, (Turn.yielding 0 10 true
      { events := [(1, Val.nat 42)], endTime := 100 } {}).1.result =
        Except.error er) ∧
    (Turn.yielding 0 10 true
      { events := [(1, Val.nat 42)], endTime := 100 } {}).1.state.output = none ∧
    (Turn.yielding 0 10 true { events := [(1, Val.nat 42)], endTime := 100 } {}).2 =
      ([(1, Val.nat 42)].takeWhile (fun e => decide (e.1 < 0 + 10))).map Prod.snd := by
  have h := C5_partial_results_amended 0 10
    { events := [(1, Val.nat 42)], endTime := 100 } {} rfl rfl (by decide)
    ⟨TurnErr.turnTimeout 10, by decide⟩
  exact ⟨⟨TurnErr.turnTimeout 10, by decide⟩, h.1, h.2⟩

/-! ## Hook dispatch (for C6) -/

/-- The code's tag filter `hook_tags is None or (_source_tags and
hook_tags & _source_tags)` coincides with the claim's "tag set is empty
(absent) or intersects the source tags": a nonempty intersection forces the
source tags to be nonempty. -/
theorem tagsAllow_eq_claim (tags : Option (List String)) (src : List String) :
    tagsAllow tags src =
      (tags.isNone || (tags.getD []).any (fun s => decide (s ∈ src))) := by
  cases tags with
  | none => rfl
  | some ts =>
    simp only [tagsAllow, Option.isNone_some, Bool.false_or, Option.getD_some]
    cases hany : ts.any (fun s => decide (s ∈ src)) with
    | false => simp
    | true =>
      obtain ⟨x, hx, hmem⟩ := List.any_eq_true.mp hany
      simp only [decide_eq_true_eq] at hmem
      cases src with
      | nil => simp at hmem
      | cons y ys => simp

/-- C6: `fire` invokes the instance hooks first, in list order, then every
globally registered hook matching the event type whose tag set is absent or
intersects the source tags, skipping any global hook whose identity already
fired as an instance hook; consequently a hook registered both on the
instance and globally fires exactly once per event. -/
theorem C6_fire_order_and_dedup (t : HookEventType) (instH globalH : List GHook)
    (src : List String) (h : GHook)
    (hcount : (instH.map GHook.hid).count h.hid = 1) :
    HookRegistry.fire t instH globalH src =
      instH ++ globalH.filter (fun g =>
        decide (t ∈ g.types) &&
        !(decide (g.hid ∈ instH.map GHook.hid)) &&
        (g.tags.isNone || (g.tags.getD []).any (fun s => decide (s ∈ src)))) ∧
    ((HookRegistry.fire t instH globalH src).map GHook.hid).count h.hid = 1 := by
  have hfe : HookRegistry.fire t instH globalH src =
      instH ++ globalH.filter (fun g =>
        decide (t ∈ g.types) &&
        !(decide (g.hid ∈ instH.map GHook.hid)) &&
        (g.tags.isNone || (g.tags.getD []).any (fun s => decide (s ∈ src)))) := by
    simp only [HookRegistry.fire, getByType]
    rw [List.filter_filter]
    congr 1
    apply List.filter_congr
    intro g _
    rw [tagsAllow_eq_claim]
    cases decide (t ∈ g.types) <;>
      cases decide (g.hid ∈ instH.map GHook.hid) <;>
      cases (g.tags.isNone || (g.tags.getD []).any (fun s => decide (s ∈ src))) <;>
      rfl
  have hmemids : h.hid ∈ instH.map GHook.hid := by
    have hpos : 0 < (instH.map GHook.hid).count h.hid := by omega
    exact List.count_pos_iff.mp hpos
  refine ⟨hfe, ?_⟩
  rw [hfe, List.map_append, List.count_append, hcount]
  have hzero : ((globalH.filter (fun g =>
      decide (t ∈ g.types) &&
      !(decide (g.hid ∈ instH.map GHook.hid)) &&
      (g.tags.isNone || (g.tags.getD []).any (fun s => decide (s ∈ src))))).map
        GHook.hid).count h.hid = 0 := by
    rw [List.count_eq_zero]
    intro hmm
    rw [List.mem_map] at hmm
    obtain ⟨g, hgf, hgid⟩ := hmm
    rw [List.mem_filter] at hgf
    have hp := hgf.2
    rw [Bool.and_assoc] at hp
    rw [Bool.and_eq_true] at hp
    have hp2 := hp.2
    rw [Bool.and_eq_true] at hp2
    have hnot := hp2.1
    rw [Bool.not_eq_true', decide_eq_false_iff_not] at hnot
    rw [hgid] at hnot
    exact hnot hmemids
  rw [hzero]

/-- Witness for C6: hook 1 (instance + global) fires exactly once, followed
by the matching global hook 2; hook 3 does not match the event type. -/
theorem C6_fire_order_and_dedup_witness :
    ([wHook1].map GHook.hid).count wHook1.hid = 1 ∧
    HookRegistry.fire HookEventType.beforeRun [wHook1] [wHook1, wHook2, wHook3] [] =
      [wHook1, wHook2] ∧
    ((HookRegistry.fire HookEventType.beforeRun [wHook1]
      [wHook1, wHook2, wHook3] []).map GHook.hid).count wHook1.hid = 1 := by
  have h := C6_fire_order_and_dedup HookEventType.beforeRun [wHook1]
    [wHook1, wHook2, wHook3] [] wHook1 (by decide)
  exact ⟨by decide, by decide, h.2⟩

/-! ## Agent routing (for C3) -/

/-- C3 (code behaviour, including the failing inputs): the run loop's
per-value step dispatches by exactly the four disjoint rules of
`_route_value` plus the forward condition — and while the dispatch itself
is implemented as claimed (ContextItem and Turn values are consumed, other
values forwarded unchanged), the two container legs only complete while
the containers have room: at a full pool or full queue (the steady state of
a long-running agent) the missing ON_EVICT enum members make the container
call raise `AttributeError`, so the value is neither added, appended, nor
forwarded — the claimed routing does not happen. -/
theorem C3_routing_dispatch_and_full_container_failure :
    -- id-carrying context item, pool has room: added to the pool, not forwarded
    (wAgent.processValue (RValue.ctxItem wItemA) = Except.ok
      ({ wAgent with pool := { limit := some 2, items := [("a", wItemA)] } }, [])) ∧
    -- id-less context item, queue has room: appended to the queue, not forwarded
    (wAgent.processValue (RValue.ctxItem wItemNoId) = Except.ok
      ({ wAgent with queue := { limit := 2, items := [wItemNoId] } }, [])) ∧
    -- a Turn value: enqueued on this same agent, not forwarded
    (wAgent.processValue (RValue.turnV "add") = Except.ok
      ({ wAgent with turnQueue := ["add"] }, [])) ∧
    -- any other value: forwarded unchanged, state untouched
    (wAgent.processValue (RValue.other (Val.nat 5)) =
      Except.ok (wAgent, [RValue.other (Val.nat 5)])) ∧
    -- failing input: the same id-carrying item at a full pool
    (wAgentFull.processValue (RValue.ctxItem wItemC) = Except.error
      (AgentErr.poolErr (PoolError.attributeError "ContextPoolHook.ON_EVICT"))) ∧
    -- failing input: the same id-less item at a full queue
    (wAgentFull.processValue (RValue.ctxItem wItemNoId) = Except.error
      (AgentErr.queueErr (QueueError.attributeError "ContextQueueHook.ON_EVICT"))) := by
  refine ⟨by decide, by decide, by decide, by decide, by decide, by decide⟩

end Pygents
